import Mathlib

/-!
Verification of the signmap filtering-and-rendering pipeline (src/script.js)
against its natural-language specification.

The script is shallowly embedded: JavaScript strings become `String`,
objects parsed from CSV records become association lists from column name
to string value (`Row`), `undefined` is `Option.none`, `parseFloat` is a
small executable parser classifying its input as NaN / ±Infinity / a finite
rational, and the marker-cluster collection is an explicit list of `Marker`
values threaded through `createMarkers`.  External collaborators (Leaflet,
PapaParse, the DOM) are modelled only through the values the script hands
them or reads back.
-/

namespace SignMap

/-! ## JavaScript string primitives -/

/-- JS `String.prototype.toLowerCase` on one character; the script only ever
lowers ASCII data (column names and CSV field values), so the ASCII range
is modelled. -/
def lowerChar (c : Char) : Char :=
  if 'A' ≤ c ∧ c ≤ 'Z' then Char.ofNat (c.toNat + 32) else c

/-- JS `String.prototype.toUpperCase` on one character (ASCII range). -/
def upperChar (c : Char) : Char :=
  if 'a' ≤ c ∧ c ≤ 'z' then Char.ofNat (c.toNat - 32) else c

/-- JS `s.toLowerCase()`. -/
def jsLower (s : String) : String := ⟨s.data.map lowerChar⟩

/-- JS `s.toUpperCase()`. -/
def jsUpper (s : String) : String := ⟨s.data.map upperChar⟩

/-- Substring test on character lists: some tail of `hay` starts with
`pat`. -/
def listIncl (hay pat : List Char) : Bool :=
  hay.tails.any (fun t => pat.isPrefixOf t)

/-- JS `hay.includes(pat)`. -/
def jsIncludes (hay pat : String) : Bool := listIncl hay.data pat.data

/-- A JavaScript string-or-undefined value: the result of reading a
property of a parsed row object. -/
abbrev JSVal := Option String

/-- JavaScript truthiness of a string-or-undefined value: `undefined` and
the empty string are falsy. -/
def truthy : JSVal → Bool
  | none   => false
  | some s => s != ""

/-- Coercion to string as done by template literals: `undefined` prints as
"undefined". -/
def jsToStr : JSVal → String
  | none   => "undefined"
  | some s => s

/-- JavaScript `a || b` on two field reads: `b` whenever `a` is falsy. -/
def jsOr (a b : JSVal) : JSVal := if truthy a then a else b

/-! ## `parseFloat` -/

/-- The value classes `parseFloat` can produce.  A finite value is kept in
unevaluated decimal form, denoting `(-1)^sign * mant * 10^exp10`: the
script never does arithmetic or comparisons on the parsed coordinates, it
only checks `isNaN` and forwards the numbers to the mapping library, so
floating-point rounding and overflow are irrelevant to every claim and are
not modelled. -/
inductive JSNum where
  | nan
  | inf (neg : Bool)
  | num (sign : Bool) (mant : Nat) (exp10 : Int)
deriving DecidableEq

/-- JS `isNaN(x)` for an already-parsed number. -/
def jsIsNaN : JSNum → Bool
  | .nan => true
  | _    => false

/-- JS `Number.isFinite(x)` for an already-parsed number. -/
def jsIsFinite : JSNum → Bool
  | .num _ _ _ => true
  | _          => false

def isWSChar (c : Char) : Bool :=
  c = ' ' || c = '\t' || c = '\n' || c = '\r'

def isDigitChar (c : Char) : Bool := '0' ≤ c && c ≤ '9'

/-- Value of a digit string read left to right. -/
def digitsVal (l : List Char) : Nat :=
  l.foldl (fun a c => 10 * a + (c.toNat - 48)) 0

/-- Optional sign in front of a numeric literal. -/
def parseSign : List Char → Bool × List Char
  | '-' :: cs => (true, cs)
  | '+' :: cs => (false, cs)
  | cs        => (false, cs)

/-- Optional exponent part `e±ddd`; an `e` not followed by digits
contributes nothing, as `parseFloat` takes the longest valid prefix. -/
def parseExpPart (cs : List Char) : Int :=
  match cs with
  | 'e' :: cs1 | 'E' :: cs1 =>
    let (eneg, cs2) := parseSign cs1
    let ds := cs2.takeWhile isDigitChar
    if ds.isEmpty then 0
    else if eneg then -(digitsVal ds : Int) else (digitsVal ds : Int)
  | _ => 0

/-- JS `parseFloat` on the characters of its (string-converted) argument:
skip leading whitespace, optional sign, then either the literal
`Infinity` or a decimal literal with optional fraction and exponent;
`NaN` when no digits can be read. -/
def parseFloatChars (cs0 : List Char) : JSNum :=
  let cs := cs0.dropWhile isWSChar
  let (neg, cs) := parseSign cs
  if "Infinity".data.isPrefixOf cs then .inf neg
  else
    let ipart := cs.takeWhile isDigitChar
    let cs1 := cs.dropWhile isDigitChar
    let (fpart, cs2) :=
      match cs1 with
      | '.' :: r => (r.takeWhile isDigitChar, r.dropWhile isDigitChar)
      | _        => (([] : List Char), cs1)
    if ipart.isEmpty && fpart.isEmpty then .nan
    else
      let e := parseExpPart cs2
      .num neg (digitsVal (ipart ++ fpart)) (e - fpart.length)

/-- JS `parseFloat(v)` where `v` is a field read from a row: an absent field
is `undefined`, which `parseFloat` stringifies to "undefined" (hence NaN). -/
def parseFloatJS (v : JSVal) : JSNum := parseFloatChars (jsToStr v).data

/-! ## Rows -/

/-- One parsed CSV record: an ordered mapping from column name to raw
string value, as produced by the tabular parser with the header option. -/
abbrev Row := List (String × String)

/-- JS `row[k]`: first binding of key `k`, `undefined` when absent. -/
def jsLookup (r : Row) (k : String) : JSVal :=
  (r.find? (fun p => p.1 == k)).map (·.2)

/-! ## Dataset Loader (script.js 19-53) -/

/-- Split a character list at a separator character. -/
def splitChar (sep : Char) : List Char → List (List Char)
  | [] => [[]]
  | c :: cs =>
    let r := splitChar sep cs
    if c = sep then [] :: r
    else
      match r with
      | []      => [[c]]
      | g :: gs => (c :: g) :: gs

/-- Modelled from the spec: the external tabular parsing capability
(`Papa.parse` with the header option is not part of this repository).
Spec §6: "consumes raw text + 'has header row' option; produces an ordered
sequence of field-mappings"; §4.1: "first record's fields become column
names; each subsequent record becomes one Row with the same column set
(missing trailing fields treated as absent)".  Quoting rules of the
concrete parser are beyond the spec and unused by the claims. -/
def papaParse (csv : String) : List Row :=
  match (splitChar '\n' csv.data).map (fun l => (splitChar ',' l).map fun cs => (⟨cs⟩ : String)) with
  | [] => []
  | header :: records => records.map fun fields => header.zip fields

/-- The loader's row filter (script.js 40): `row.latitude && row.longitude`
— both coordinate fields truthy. -/
def loaderKeeps (r : Row) : Bool :=
  truthy (jsLookup r "latitude") && truthy (jsLookup r "longitude")

/-- The filter `rows.filter(...)` at script.js 39-45: the rows the loader keeps for
`createMarkers`. -/
def validRows (rows : List Row) : List Row := rows.filter loaderKeeps

/-- Formalisation of the spec's §3 definition, for comparison with the
code: "a row is geolocatable iff both [latitude and longitude] parse to
finite numbers". -/
def specGeolocatable (r : Row) : Bool :=
  jsIsFinite (parseFloatJS (jsLookup r "latitude"))
    && jsIsFinite (parseFloatJS (jsLookup r "longitude"))

/-! ## Marker Renderer (script.js 56-155) -/

/-- One Leaflet marker as the script builds it: position, emoji icon and
bound popup HTML. -/
structure Marker where
  lat : JSNum
  lng : JSNum
  emoji : String
  popup : String
deriving DecidableEq

/-- The renderer-side coordinate check (script.js 70):
`isNaN(parseFloat(row.latitude)) || isNaN(parseFloat(row.longitude))`. -/
def coordNaN (r : Row) : Bool :=
  jsIsNaN (parseFloatJS (jsLookup r "latitude"))
    || jsIsNaN (parseFloatJS (jsLookup r "longitude"))

/-- Food/drink classification (script.js 76-81): `category` truthy and its
lower-cased value contains one of the four keywords. -/
def rowIsFoodDrink (r : Row) : Bool :=
  truthy (jsLookup r "category") &&
    (let c := jsLower (jsToStr (jsLookup r "category"))
     jsIncludes c "food" || jsIncludes c "restaurant"
       || jsIncludes c "cafe" || jsIncludes c "bar")

/-- Emoji selection (script.js 88-93): exact match on
`categoriesPrimary.name`, default pin otherwise. -/
def rowEmoji (r : Row) : String :=
  if jsLookup r "categoriesPrimary.name" == some "Drinks" then "🍺"
  else if jsLookup r "categoriesPrimary.name" == some "Food" then "🍝"
  else "📍"

/-- Popup HTML assembly (script.js 104-134): conditional, ordered
concatenation of the optional sections. -/
def popupContent (r : Row) : String :=
  let nameOrTitle := jsOr (jsLookup r "name") (jsLookup r "title")
  let s := "<div class=\"popup-content\">"
  let s := if truthy nameOrTitle then s ++ "<h3>" ++ jsToStr nameOrTitle ++ "</h3>" else s
  let s := if truthy (jsLookup r "subcategoriesPrimary.name") then
      s ++ "<div class=\"subcategory\">" ++ jsToStr (jsLookup r "subcategoriesPrimary.name") ++ "</div>"
    else s
  let s := if truthy (jsLookup r "urls.website") then
      s ++ "<div class=\"website\"><a href=\"" ++ jsToStr (jsLookup r "urls.website")
        ++ "\" target=\"_blank\">Website</a></div>"
    else s
  let s := if truthy (jsLookup r "image") then
      s ++ "<img src=\"" ++ jsToStr (jsLookup r "image") ++ "\" alt=\"Image for "
        ++ jsToStr nameOrTitle ++ "\" class=\"popup-image\">"
    else s
  let s := if truthy (jsLookup r "address") then
      (let a := s ++ "<p class=\"address\"><strong>Address:</strong> " ++ jsToStr (jsLookup r "address")
       let a := if truthy (jsLookup r "postcode") then a ++ ", " ++ jsToStr (jsLookup r "postcode") else a
       a ++ "</p>")
    else s
  let s := if truthy (jsLookup r "category") then
      s ++ "<p><strong>Category:</strong> " ++ jsToStr (jsLookup r "category") ++ "</p>"
    else s
  s ++ "</div>"

/-- The marker built for one row (script.js 94-136). -/
def mkMarker (r : Row) : Marker :=
  { lat := parseFloatJS (jsLookup r "latitude")
    lng := parseFloatJS (jsLookup r "longitude")
    emoji := rowEmoji r
    popup := popupContent r }

/-- The renderer's mutable state during one pass: the marker-cluster
collection plus the two counters. -/
structure RenderState where
  layers : List Marker
  foodDrinkCount : Nat
  totalMarkers : Nat
deriving DecidableEq

/-- The body of the `rows.forEach` loop (script.js 65-146), parameterised
by `fails`: whether the external marker/popup construction (the Leaflet
calls, lines 94-137, all situated after the food/drink accounting) throws
for a given row.  The `try`/`catch` turns such a throw into a log entry,
leaving the state as it was at the throw: food/drink already counted, no
marker added, total not incremented. -/
def markerStep (fails : Row → Bool) (st : RenderState) (r : Row) : RenderState :=
  if coordNaN r then st
  else
    let st1 := if rowIsFoodDrink r then { st with foodDrinkCount := st.foodDrinkCount + 1 } else st
    if fails r then st1
    else { st1 with layers := st1.layers ++ [mkMarker r], totalMarkers := st1.totalMarkers + 1 }

/-- The function `createMarkers(rows)` (script.js 56-155) over an explicit previous
marker collection: `markers.clearLayers()` empties the collection and
resets the counters, then the loop runs over every row. -/
def createMarkers (fails : Row → Bool) (prevLayers : List Marker) (rows : List Row) : RenderState :=
  let st0 : RenderState := { layers := prevLayers, foodDrinkCount := 0, totalMarkers := 0 }
  let st1 : RenderState := { st0 with layers := [] }
  rows.foldl (markerStep fails) st1

/-- The three stat displays written at script.js 152-154. -/
structure Stats where
  totalMarkers : Nat
  foodDrinkMarkers : Nat
  visibleMarkers : Nat
deriving DecidableEq

def renderStats (st : RenderState) : Stats :=
  { totalMarkers := st.totalMarkers
    foodDrinkMarkers := st.foodDrinkCount
    visibleMarkers := st.totalMarkers }

/-! ## Filter Index Builder (script.js 158-204) -/

/-- JS `[...new Set(l)]`: distinct elements in first-occurrence order. -/
def dedupFirstAux (seen : List JSVal) : List JSVal → List JSVal
  | [] => []
  | x :: xs =>
    if x ∈ seen then dedupFirstAux seen xs
    else x :: dedupFirstAux (x :: seen) xs

def jsSetList (l : List JSVal) : List JSVal := dedupFirstAux [] l

/-- Lexicographic comparison of character lists by code point, the order
`Array.prototype.sort()` with no comparator uses on strings (identical to
code-unit order on the ASCII/BMP data of this dataset). -/
def charListLe : List Char → List Char → Bool
  | [], _ => true
  | _ :: _, [] => false
  | a :: as, b :: bs => if a = b then charListLe as bs else decide (a < b)

/-- Lexicographic-ascending order on strings, as a relation. -/
def strLe (a b : String) : Prop := charListLe a.data b.data = true

instance : DecidableRel strLe := fun a b =>
  if h : charListLe a.data b.data = true then .isTrue h else .isFalse h

/-- JS `.sort()` with no comparator on an array of (distinct) strings:
the lexicographically ascending rearrangement. -/
def sortStr (l : List String) : List String := l.insertionSort strLe

/-- The pipeline `[...new Set(data.map(item => item[column]))].filter(Boolean).sort()`
(script.js 183-185). -/
def uniqueValues (data : List Row) (col : String) : List String :=
  sortStr ((jsSetList (data.map fun item => jsLookup item col)).filterMap
    fun v => if truthy v then v else none)

/-- JS `Object.keys(data[0] || \x7b\x7d)` (script.js 172). -/
def headerColumns (data : List Row) : List String := (data.headD []).map Prod.fst

/-- The four column names excluded at script.js 175-180. -/
def filterableColumns (data : List Row) : List String :=
  (headerColumns data).filter fun col =>
    col != "latitude" && col != "longitude" && col != "name" && col != "title"

/-- The dropdowns actually created (script.js 182-204): one per filterable
column whose unique-value list has length in (0, 50), carrying its sorted
option values. -/
def offeredDropdowns (data : List Row) : List (String × List String) :=
  (filterableColumns data).filterMap fun col =>
    let uv := uniqueValues data col
    if 0 < uv.length ∧ uv.length < 50 then some (col, uv) else none

/-- The four column names the code never offers as dropdowns
(script.js 175-180): the coordinate fields and the two name fields. -/
def excludedColumns : List String := ["latitude", "longitude", "name", "title"]

/-- Formalisation of the spec's distinct-value count for a column: the
number of distinct non-empty values the column takes across the dataset
(case-sensitive string equality, falsy values excluded). -/
def distinctCount (data : List Row) (col : String) : Nat :=
  ((data.filterMap fun r => jsLookup r col).filter fun s => s != "").dedup.length

structure FilterControls where
  dropdowns : List (String × List String)
deriving DecidableEq

/-- The function `createFilterControls(data)` (script.js 158-238).  Called with
`undefined` (`none`) it appends the search box and then throws a TypeError
at `Object.keys(data[0] || {})` (line 172), since indexing `undefined`
throws; with an actual row list it builds the search box plus one dropdown
per offered column. -/
def createFilterControls : Option (List Row) → Except String FilterControls
  | none => .error "TypeError: cannot read properties of undefined (reading 0)"
  | some data => .ok { dropdowns := offeredDropdowns data }

/-! ## Filter Evaluator (script.js 210-234) -/

/-- Dropdown label text: `column.replace(/_/g, ' ').toUpperCase()`
(script.js 192). -/
def labelText (col : String) : String :=
  jsUpper ⟨col.data.map fun c => if c = '_' then ' ' else c⟩

/-- The key under which `applyFilters` reads each row:
`select.previousElementSibling.textContent.toLowerCase()` (script.js 213)
— the label text lowered, not the original column name. -/
def filterKeyOf (col : String) : String := jsLower (labelText col)

/-- The Active Filter State: the search box value plus, per rendered
dropdown in order, its original column name and currently selected value
(empty string when unconstrained). -/
structure FilterState where
  search : String
  selections : List (String × String)

/-- The search conjunct of the row-inclusion test (script.js 219-224). -/
def searchPass (search : String) (item : Row) : Bool :=
  let searchTerm := jsLower search
  if searchTerm != "" then
    jsIncludes (jsLower (String.intercalate " " (item.map Prod.snd))) searchTerm
  else true

/-- The column-filter conjunct (script.js 227-230), reading each row at the
label-derived key. -/
def columnPass (sels : List (String × String)) (item : Row) : Bool :=
  sels.all fun f => f.2 == "" || jsLookup item (filterKeyOf f.1) == some f.2

/-- Row-inclusion test of `applyFilters` (script.js 217-231). -/
def rowPasses (st : FilterState) (item : Row) : Bool :=
  searchPass st.search item && columnPass st.selections item

/-- The filtered dataset of `applyFilters` (script.js 217-231); the function then
re-renders via `createMarkers(filteredData)`. -/
def applyFilters (data : List Row) (st : FilterState) : List Row :=
  data.filter (rowPasses st)

/-- Formalisation of the spec's column predicate (§4.3): the constraint is
keyed by the *original* column name.  Compared against `columnPass`. -/
def specColumnPass (sels : List (String × String)) (item : Row) : Bool :=
  sels.all fun f => f.2 == "" || jsLookup item f.1 == some f.2

/-! ## loadCSV and startup (script.js 19-53, 241-245) -/

/-- Outcome of the single `fetch('data.csv')`. -/
inductive FetchOutcome where
  | transportFail
  | response (status : Nat) (body : String)

/-- JS `response.ok`: status in the 200-299 range. -/
def fetchOk (status : Nat) : Bool := 200 ≤ status && status ≤ 299

/-- Whether the retrieval succeeds (transport worked and status is a
success status). -/
def fetchSucceeds : FetchOutcome → Bool
  | .transportFail => false
  | .response status _ => fetchOk status

/-- Observable outcome of one `loadCSV()` call. -/
structure LoadCSVRun where
  /-- The value the caller's `await loadCSV()` resolves to. -/
  callerValue : Option (List Row)
  /-- The rejection the caller would observe, were the promise to reject. -/
  callerError : Option String
  /-- What the chain's final `.catch` logged via `console.error`. -/
  loggedError : Option String
  /-- The argument of the `createMarkers(validRows)` call made inside the
  chain (script.js 48), when reached. -/
  renderedRows : Option (List Row)
deriving DecidableEq

/-- The function `loadCSV` (script.js 19-53).  The `async` function starts the
`fetch(...).then(...).then(...).catch(...)` chain without returning or
awaiting it and has no `return` statement, so the value the caller awaits
is `undefined` (`none`) in every run, and every chain error ends in the
final `.catch`, which only logs it — the caller never observes a
rejection.  On a success response whose parsed row list is empty,
`Object.keys(rows[0])` (line 33) throws inside the chain and is likewise
only logged. -/
def loadCSV (o : FetchOutcome) : LoadCSVRun :=
  match o with
  | .transportFail =>
    { callerValue := none
      callerError := none
      loggedError := some "Error loading CSV: TypeError: Failed to fetch"
      renderedRows := none }
  | .response status body =>
    if fetchOk status then
      let rows := papaParse body
      if rows.isEmpty then
        { callerValue := none
          callerError := none
          loggedError := some "Error loading CSV: TypeError: rows[0] is undefined"
          renderedRows := none }
      else
        { callerValue := none
          callerError := none
          loggedError := none
          renderedRows := some (validRows rows) }
    else
      { callerValue := none
        callerError := none
        loggedError := some ("Error loading CSV: Error: HTTP error! status: " ++ toString status)
        renderedRows := none }

/-- Observable outcome of the `DOMContentLoaded` handler
(script.js 241-245): `data = await loadCSV()`, then
`createFilterControls(data)`.  The `createMarkers(data)` call on line 244
is unreachable: `createFilterControls(undefined)` throws first. -/
structure StartupRun where
  loader : LoadCSVRun
  controls : Except String FilterControls

def startup (o : FetchOutcome) : StartupRun :=
  let run := loadCSV o
  { loader := run, controls := createFilterControls run.callerValue }

/-! ## Concrete data used by the scenario claims -/

/-- The spec's two-row scenario input, first row. -/
def cafeRow : Row := [("latitude", "40.7"), ("longitude", "-74.0"), ("category", "Cafe")]

/-- The spec's two-row scenario input, second row: latitude "bad". -/
def badRow : Row := [("latitude", "bad"), ("longitude", "-74.0"), ("category", "Food")]

def scenarioRows : List Row := [cafeRow, badRow]

/-- A row whose only metadata column is named "Type" (capitalised). -/
def typeRow : Row := [("latitude", "40.7"), ("longitude", "-74.0"), ("Type", "Bar")]

/-- Rows with categories Bar / Food / Bar, for the dropdown scenario. -/
def barRowA : Row := [("latitude", "40.70"), ("longitude", "-74.00"), ("category", "Bar")]

def barRowB : Row := [("latitude", "40.71"), ("longitude", "-74.01"), ("category", "Food")]

def barRowC : Row := [("latitude", "40.72"), ("longitude", "-74.02"), ("category", "Bar")]

def barRows : List Row := [barRowA, barRowB, barRowC]

/-- A row whose latitude parses to Infinity: non-finite but not NaN. -/
def infRow : Row := [("latitude", "Infinity"), ("longitude", "-74.0")]

/-- A small CSV body for the load-path claims. -/
def demoCSV : String := "latitude,longitude,category\n40.7,-74.0,Cafe"

/-! ## Render-pass characterisation -/

theorem markerStep_layers (fails : Row → Bool) (st : RenderState) (r : Row) :
    (markerStep fails st r).layers
      = st.layers ++ if !coordNaN r && !fails r then [mkMarker r] else [] := by
  unfold markerStep
  by_cases h1 : coordNaN r = true <;> by_cases h2 : fails r = true <;>
    by_cases h3 : rowIsFoodDrink r = true <;> simp [h1, h2, h3]

theorem markerStep_total (fails : Row → Bool) (st : RenderState) (r : Row) :
    (markerStep fails st r).totalMarkers
      = st.totalMarkers + if !coordNaN r && !fails r then 1 else 0 := by
  unfold markerStep
  by_cases h1 : coordNaN r = true <;> by_cases h2 : fails r = true <;>
    by_cases h3 : rowIsFoodDrink r = true <;> simp [h1, h2, h3]

theorem markerStep_food (fails : Row → Bool) (st : RenderState) (r : Row) :
    (markerStep fails st r).foodDrinkCount
      = st.foodDrinkCount + if !coordNaN r && rowIsFoodDrink r then 1 else 0 := by
  unfold markerStep
  by_cases h1 : coordNaN r = true <;> by_cases h2 : fails r = true <;>
    by_cases h3 : rowIsFoodDrink r = true <;> simp [h1, h2, h3]

theorem markerLoop_layers (fails : Row → Bool) :
    ∀ (rows : List Row) (st : RenderState),
      (rows.foldl (markerStep fails) st).layers
        = st.layers ++ (rows.filter fun r => !coordNaN r && !fails r).map mkMarker
  | [], _ => by simp
  | r :: rows, st => by
    rw [List.foldl_cons, markerLoop_layers fails rows, markerStep_layers, List.filter_cons]
    by_cases h : (!coordNaN r && !fails r) = true <;> simp [h]

theorem markerLoop_total (fails : Row → Bool) :
    ∀ (rows : List Row) (st : RenderState),
      (rows.foldl (markerStep fails) st).totalMarkers
        = st.totalMarkers + rows.countP (fun r => !coordNaN r && !fails r)
  | [], _ => by simp
  | r :: rows, st => by
    rw [List.foldl_cons, markerLoop_total fails rows, markerStep_total, List.countP_cons]
    by_cases h : (!coordNaN r && !fails r) = true <;> simp [h]
    all_goals omega

theorem markerLoop_food (fails : Row → Bool) :
    ∀ (rows : List Row) (st : RenderState),
      (rows.foldl (markerStep fails) st).foodDrinkCount
        = st.foodDrinkCount + rows.countP (fun r => !coordNaN r && rowIsFoodDrink r)
  | [], _ => by simp
  | r :: rows, st => by
    rw [List.foldl_cons, markerLoop_food fails rows, markerStep_food, List.countP_cons]
    by_cases h : (!coordNaN r && rowIsFoodDrink r) = true <;> simp [h]
    all_goals omega

theorem createMarkers_layers (fails : Row → Bool) (prev : List Marker) (rows : List Row) :
    (createMarkers fails prev rows).layers
      = (rows.filter fun r => !coordNaN r && !fails r).map mkMarker := by
  simpa [createMarkers] using
    markerLoop_layers fails rows { layers := [], foodDrinkCount := 0, totalMarkers := 0 }

theorem createMarkers_total (fails : Row → Bool) (prev : List Marker) (rows : List Row) :
    (createMarkers fails prev rows).totalMarkers
      = rows.countP (fun r => !coordNaN r && !fails r) := by
  simpa [createMarkers] using
    markerLoop_total fails rows { layers := [], foodDrinkCount := 0, totalMarkers := 0 }

theorem createMarkers_food (fails : Row → Bool) (prev : List Marker) (rows : List Row) :
    (createMarkers fails prev rows).foodDrinkCount
      = rows.countP (fun r => !coordNaN r && rowIsFoodDrink r) := by
  simpa [createMarkers] using
    markerLoop_food fails rows { layers := [], foodDrinkCount := 0, totalMarkers := 0 }

theorem jsIsNaN_eq_false_of_finite {n : JSNum} (h : jsIsFinite n = true) :
    jsIsNaN n = false := by
  cases n <;> simp_all [jsIsFinite, jsIsNaN]

/-! ## Claim theorems: renderer side -/

/-- C2 is false as stated: on the spec's own two-row input the loader
keeps both rows — its check (script.js 40) is truthiness of the raw
coordinate fields, not a finite-number parse — so it yields 2 rows, and
the kept second row (latitude "bad") is not geolocatable. -/
theorem c2_counterexample :
    (validRows scenarioRows).length = 2
    ∧ specGeolocatable badRow = false
    ∧ badRow ∈ validRows scenarioRows := by decide

/-- C2 amended: the loader keeps exactly the rows whose latitude and
longitude fields are both truthy (present and non-empty); the reduction to
finitely-parsing rows happens downstream in the renderer, whose NaN check
on the two-row scenario input produces the claimed stats
total = 1, foodDrink = 1. -/
theorem c2_loader_truthiness :
    (∀ (rows : List Row) (r : Row),
        r ∈ validRows rows ↔ r ∈ rows ∧ loaderKeeps r = true)
    ∧ renderStats (createMarkers (fun _ => false) [] (validRows scenarioRows))
        = { totalMarkers := 1, foodDrinkMarkers := 1, visibleMarkers := 1 } := by
  refine ⟨fun rows r => ?_, by decide⟩
  simp [validRows, List.mem_filter]

/-- C4: after every render pass the rendered marker collection is exactly
the markers built from the input row sequence (those rows passing the NaN
check whose construction does not throw) — the previous collection is
cleared before any addition and never contributes, so the result is never
a delta of the previous render. -/
theorem c4_full_rerender (fails : Row → Bool) (prev : List Marker) (rows : List Row) :
    (createMarkers fails prev rows).layers
        = (rows.filter fun r => !coordNaN r && !fails r).map mkMarker
    ∧ createMarkers fails prev rows = createMarkers fails [] rows :=
  ⟨createMarkers_layers fails prev rows, rfl⟩

/-- C8 is false as stated: a row with latitude "Infinity" has a
non-finite latitude, yet the render pass does not skip it — it is rendered
and counted — because script.js 70 checks only `isNaN`, not finiteness. -/
theorem c8_counterexample :
    jsIsFinite (parseFloatJS (jsLookup infRow "latitude")) = false
    ∧ (createMarkers (fun _ => false) [] [infRow]).totalMarkers = 1
    ∧ (createMarkers (fun _ => false) [] [infRow]).layers = [mkMarker infRow] := by
  decide

/-- C8 amended: during rendering a row is skipped iff `parseFloat` of its
latitude or longitude is NaN; rows whose coordinates parse to finite
numbers are never skipped by this check (but coordinates parsing to
±Infinity also pass it), and a skipped row never fails the pass: the pass
always renders exactly the non-NaN, non-throwing rows. -/
theorem c8_nan_skip (fails : Row → Bool) (rows : List Row) (r : Row)
    (hlat : jsIsFinite (parseFloatJS (jsLookup r "latitude")) = true)
    (hlng : jsIsFinite (parseFloatJS (jsLookup r "longitude")) = true) :
    coordNaN r = false
    ∧ (createMarkers fails [] rows).layers
        = (rows.filter fun x => !coordNaN x && !fails x).map mkMarker := by
  refine ⟨?_, createMarkers_layers fails [] rows⟩
  simp [coordNaN, jsIsNaN_eq_false_of_finite hlat, jsIsNaN_eq_false_of_finite hlng]

/-- Witness for `c8_nan_skip` at the concrete Bar row. -/
theorem c8_nan_skip_witness :
    coordNaN barRowA = false
    ∧ (createMarkers (fun _ => false) [] [barRowA]).layers
        = ([barRowA].filter fun x => !coordNaN x && !(fun _ : Row => false) x).map mkMarker :=
  c8_nan_skip (fun _ => false) [barRowA] barRowA (by decide) (by decide)

/-- C9: a per-row construction failure is caught and confined to that row:
for any failing row `b`, the pass over `pre ++ b :: post` still processes
and renders every qualifying row of `post`, producing exactly the markers
of `pre` followed by those of `post`, the totals adding up likewise. -/
theorem c9_failure_isolation (fails : Row → Bool) (pre post : List Row) (b : Row)
    (hb : fails b = true) :
    (createMarkers fails [] (pre ++ b :: post)).layers
        = (createMarkers fails [] pre).layers ++ (createMarkers fails [] post).layers
    ∧ (createMarkers fails [] (pre ++ b :: post)).totalMarkers
        = (createMarkers fails [] pre).totalMarkers
            + (createMarkers fails [] post).totalMarkers := by
  constructor
  · simp [createMarkers_layers, List.filter_append, List.filter_cons, hb]
  · simp [createMarkers_total, List.countP_append, List.countP_cons, hb]

/-- Witness for `c9_failure_isolation`: the middle row's construction
throws, the Bar rows on either side still render. -/
theorem c9_failure_isolation_witness :
    ((createMarkers (fun r => r == barRowB) [] ([barRowA] ++ barRowB :: [barRowC])).layers
        = (createMarkers (fun r => r == barRowB) [] [barRowA]).layers
            ++ (createMarkers (fun r => r == barRowB) [] [barRowC]).layers)
    ∧ (createMarkers (fun r => r == barRowB) [] ([barRowA] ++ barRowB :: [barRowC])).totalMarkers
        = (createMarkers (fun r => r == barRowB) [] [barRowA]).totalMarkers
            + (createMarkers (fun r => r == barRowB) [] [barRowC]).totalMarkers :=
  c9_failure_isolation (fun r => r == barRowB) [barRowA] [barRowC] barRowB (by decide)

/-- C10 is false on the code: with a single food/drink row whose marker
construction throws, the pass writes foodDrink = 1 but total = 0, because
`foodDrinkCount++` (script.js 84) precedes the throwing construction. -/
theorem c10_counterexample :
    ¬ ((createMarkers (fun _ => true) [] [barRowA]).foodDrinkCount
        ≤ (createMarkers (fun _ => true) [] [barRowA]).totalMarkers) := by
  decide

/-- C10 amended: the food/drink counter counts every row that passes the
NaN check and matches a keyword, regardless of whether its subsequent
marker construction throws — so in a run with construction failures it can
exceed the total — while in a run where no construction throws it never
exceeds the total. -/
theorem c10_food_count (rows : List Row) (prev : List Marker) :
    ((createMarkers (fun _ => false) prev rows).foodDrinkCount
        ≤ (createMarkers (fun _ => false) prev rows).totalMarkers)
    ∧ ∀ fails : Row → Bool,
        (createMarkers fails prev rows).foodDrinkCount
          = rows.countP fun r => !coordNaN r && rowIsFoodDrink r := by
  refine ⟨?_, fun fails => createMarkers_food fails prev rows⟩
  rw [createMarkers_food, createMarkers_total]
  exact List.countP_mono_left fun r _ h => by
    simp only [Bool.and_eq_true] at h ⊢
    exact ⟨h.1, rfl⟩

/-! ## String lemmas for the search predicate -/

theorem listIncl_iff {hay pat : List Char} : listIncl hay pat = true ↔ pat <:+: hay := by
  unfold listIncl
  rw [List.any_eq_true]
  constructor
  · rintro ⟨t, ht, hp⟩
    rw [List.mem_tails] at ht
    have hp2 : pat <+: t := by simpa using hp
    obtain ⟨s, hs⟩ := ht
    obtain ⟨u, hu⟩ := hp2
    exact ⟨s, u, by rw [← hs, ← hu, List.append_assoc]⟩
  · rintro ⟨s, t, rfl⟩
    refine ⟨pat ++ t, ?_, ?_⟩
    · rw [List.mem_tails]
      exact ⟨s, (List.append_assoc s pat t).symm⟩
    · simp

theorem jsIncludes_iff {hay pat : String} :
    jsIncludes hay pat = true ↔ pat.data <:+: hay.data :=
  listIncl_iff

theorem jsLower_eq_empty_iff {s : String} : jsLower s = "" ↔ s = "" := by
  cases s with
  | mk l =>
    constructor
    · intro h
      have h2 : l.map lowerChar = [] := congrArg String.data h
      rw [List.map_eq_nil_iff] at h2
      exact congrArg String.mk h2
    · rintro h
      have h2 : l = [] := congrArg String.data h
      subst h2
      rfl

/-! ## Claim theorems: Filter Evaluator -/

/-- C5: a row passes the search predicate iff either the search string is
empty, or the lower-cased single-space join of all the row's field values
contains the lower-cased search string as a substring; in particular the
Blue Bar row matches "blue" and matches "BAR". -/
theorem c5_search_predicate :
    (∀ (item : Row) (s : String),
        searchPass s item = true
          ↔ (s ≠ "" →
              (jsLower s).data
                <:+: (jsLower (String.intercalate " " (item.map Prod.snd))).data))
    ∧ searchPass "blue" [("name", "Blue Bar"), ("category", "Bar")] = true
    ∧ searchPass "BAR" [("name", "Blue Bar"), ("category", "Bar")] = true := by
  refine ⟨fun item s => ?_, by decide, by decide⟩
  unfold searchPass
  by_cases hs : s = ""
  · subst hs
    simp [show jsLower "" = "" from rfl]
  · have h1 : (jsLower s != "") = true := by
      simp only [bne_iff_ne, ne_eq]
      exact fun h => hs (jsLower_eq_empty_iff.mp h)
    rw [if_pos h1, jsIncludes_iff]
    simp [hs]

/-- Witness for `c5_search_predicate`: the "BAR" match, recovered from the
general equivalence at the concrete row. -/
theorem c5_search_predicate_witness :
    searchPass "BAR" [("name", "Blue Bar"), ("category", "Bar")] = true :=
  (c5_search_predicate.1 [("name", "Blue Bar"), ("category", "Bar")] "BAR").mpr (by decide)

/-- C3 is false as stated: column "Type" is offered as a dropdown, the row
satisfies the claimed original-name constraint `r["Type"] === "Bar"`, yet
`applyFilters` excludes every row, because the code reads rows at the
lower-cased label text "type" (script.js 213), not at the original column
name. -/
theorem c3_counterexample :
    specColumnPass [("Type", "Bar")] typeRow = true
    ∧ "Type" ∈ (offeredDropdowns [typeRow]).map Prod.fst
    ∧ applyFilters [typeRow] { search := "", selections := [("Type", "Bar")] } = [] := by
  refine ⟨by decide, by decide, by decide⟩

theorem columnPass_eq_spec (sels : List (String × String)) (item : Row)
    (h : ∀ c ∈ sels.map Prod.fst, filterKeyOf c = c) :
    columnPass sels item = specColumnPass sels item := by
  unfold columnPass specColumnPass
  induction sels with
  | nil => rfl
  | cons f fs ih =>
    simp only [List.all_cons]
    rw [h f.1 (by simp), ih fun c hc => h c (by simp [hc])]

/-- C3 amended: every dropdown with a non-empty selected value `v`
constrains rows by exact case-sensitive equality at the label-derived key
(the column name with underscores replaced by spaces, lower-cased), and an
empty selection imposes no constraint; for column names that are fixed
points of that transformation — such as "category" — this coincides with
the claimed original-name constraint, and the Bar scenario holds. -/
theorem c3_column_filter (data : List Row) (st : FilterState)
    (h : ∀ c ∈ st.selections.map Prod.fst, filterKeyOf c = c) :
    applyFilters data st
      = data.filter fun item =>
          searchPass st.search item && specColumnPass st.selections item := by
  unfold applyFilters
  refine List.filter_congr fun item _ => ?_
  unfold rowPasses
  rw [columnPass_eq_spec st.selections item h]

/-- Witness for `c3_column_filter`: the category = "Bar" scenario on the
three-row dataset keeps exactly the two Bar rows, in order. -/
theorem c3_column_filter_witness :
    (applyFilters barRows { search := "", selections := [("category", "Bar")] }
        = barRows.filter fun item =>
            searchPass "" item && specColumnPass [("category", "Bar")] item)
    ∧ applyFilters barRows { search := "", selections := [("category", "Bar")] }
        = [barRowA, barRowC] :=
  ⟨c3_column_filter barRows _ (by decide), by decide⟩

/-! ## Distinct-value and sortedness lemmas for the Filter Index Builder -/

theorem charListLe_total : ∀ a b : List Char, charListLe a b = true ∨ charListLe b a = true
  | [], _ => .inl rfl
  | _ :: _, [] => .inr rfl
  | a :: as, b :: bs => by
    by_cases hab : a = b
    · subst hab
      rcases charListLe_total as bs with h | h
      · exact .inl (by simpa [charListLe] using h)
      · exact .inr (by simpa [charListLe] using h)
    · rcases lt_trichotomy a b with hl | he | hg
      · exact .inl (by simp [charListLe, hab, hl])
      · exact absurd he hab
      · exact .inr (by simp [charListLe, Ne.symm hab, hg])

theorem charListLe_trans :
    ∀ a b c : List Char, charListLe a b = true → charListLe b c = true → charListLe a c = true
  | [], _, _, _, _ => rfl
  | _ :: _, [], _, hab, _ => by simp [charListLe] at hab
  | _ :: _, _ :: _, [], _, hbc => by simp [charListLe] at hbc
  | a :: as, b :: bs, c :: cs, hab, hbc => by
    by_cases h1 : a = b <;> by_cases h2 : b = c
    · subst h1; subst h2
      simp only [charListLe, if_pos rfl] at hab hbc ⊢
      exact charListLe_trans as bs cs hab hbc
    · subst h1
      simpa [charListLe, h2] using hbc
    · subst h2
      simpa [charListLe, h1] using hab
    · simp only [charListLe, if_neg h1, decide_eq_true_eq] at hab
      simp only [charListLe, if_neg h2, decide_eq_true_eq] at hbc
      have hac : a < c := lt_trans hab hbc
      simp [charListLe, ne_of_lt hac, hac]

theorem sortStr_sorted (l : List String) : (sortStr l).Pairwise strLe := by
  haveI : IsTotal String strLe := ⟨fun a b => charListLe_total a.data b.data⟩
  haveI : IsTrans String strLe := ⟨fun a b c => charListLe_trans a.data b.data c.data⟩
  exact List.sorted_insertionSort strLe l

theorem sortStr_perm (l : List String) : (sortStr l).Perm l :=
  List.perm_insertionSort strLe l

theorem mem_dedupFirstAux :
    ∀ (seen l : List JSVal) (v : JSVal), v ∈ dedupFirstAux seen l ↔ v ∈ l ∧ v ∉ seen
  | _, [], _ => by simp [dedupFirstAux]
  | seen, x :: xs, v => by
    unfold dedupFirstAux
    by_cases hx : x ∈ seen
    · rw [if_pos hx, mem_dedupFirstAux seen xs v, List.mem_cons]
      constructor
      · exact fun ⟨h1, h2⟩ => ⟨Or.inr h1, h2⟩
      · rintro ⟨h1 | h1, h2⟩
        · exact absurd (h1 ▸ hx) h2
        · exact ⟨h1, h2⟩
    · rw [if_neg hx, List.mem_cons, mem_dedupFirstAux (x :: seen) xs v]
      simp only [List.mem_cons]
      constructor
      · rintro (rfl | ⟨h1, h2⟩)
        · exact ⟨Or.inl rfl, hx⟩
        · exact ⟨Or.inr h1, fun hv => h2 (Or.inr hv)⟩
      · rintro ⟨h1 | h1, h2⟩
        · exact Or.inl h1
        · by_cases hvx : v = x
          · exact Or.inl hvx
          · exact Or.inr ⟨h1, fun hv => hv.elim hvx h2⟩

theorem nodup_dedupFirstAux : ∀ (seen l : List JSVal), (dedupFirstAux seen l).Nodup
  | _, [] => List.nodup_nil
  | seen, x :: xs => by
    unfold dedupFirstAux
    by_cases hx : x ∈ seen
    · rw [if_pos hx]
      exact nodup_dedupFirstAux seen xs
    · rw [if_neg hx]
      refine List.nodup_cons.mpr ⟨fun hmem => ?_, nodup_dedupFirstAux (x :: seen) xs⟩
      exact ((mem_dedupFirstAux _ _ _).mp hmem).2 (List.mem_cons_self x seen)

theorem mem_jsSetList {l : List JSVal} {v : JSVal} : v ∈ jsSetList l ↔ v ∈ l := by
  rw [jsSetList, mem_dedupFirstAux]
  simp

theorem nodup_jsSetList (l : List JSVal) : (jsSetList l).Nodup :=
  nodup_dedupFirstAux [] l

/-- The unique-value list the code builds for a column has exactly the
spec's distinct-non-empty-value count as its length. -/
theorem uniqueValues_length (data : List Row) (col : String) :
    (uniqueValues data col).length = distinctCount data col := by
  unfold uniqueValues distinctCount
  set keep : JSVal → Option String := fun v => if truthy v then v else none with hkeep
  set mid := (jsSetList (data.map fun item => jsLookup item col)).filterMap keep with hmid
  set tgt := ((data.filterMap fun r => jsLookup r col).filter fun s => s != "").dedup with htgt
  have hkeepinj : ∀ (a b : JSVal), ∀ s ∈ keep a, s ∈ keep b → a = b := by
    rintro a b s hsa hsb
    have ha : a = some s := by
      rcases a with _ | a <;> simp [hkeep, truthy] at hsa
      · rcases hsa with ⟨-, rfl⟩; rfl
    have hb : b = some s := by
      rcases b with _ | b <;> simp [hkeep, truthy] at hsb
      · rcases hsb with ⟨-, rfl⟩; rfl
    rw [ha, hb]
  have hmidnd : mid.Nodup := List.Nodup.filterMap hkeepinj (nodup_jsSetList _)
  have hmem : ∀ s : String, s ∈ mid ↔ s ∈ tgt := by
    intro s
    rw [hmid, htgt, List.mem_filterMap, List.mem_dedup, List.mem_filter, List.mem_filterMap]
    constructor
    · rintro ⟨v, hv, hkv⟩
      have hveq : v = some s ∧ s ≠ "" := by
        rcases v with _ | v <;> simp [hkeep, truthy] at hkv
        · rcases hkv with ⟨h1, rfl⟩; exact ⟨rfl, by simpa using h1⟩
      obtain ⟨rfl, hs⟩ := hveq
      have := mem_jsSetList.mp hv
      rw [List.mem_map] at this
      obtain ⟨r, hr, hlook⟩ := this
      exact ⟨⟨r, hr, hlook⟩, by simpa using hs⟩
    · rintro ⟨⟨r, hr, hlook⟩, hs⟩
      refine ⟨some s, mem_jsSetList.mpr (List.mem_map.mpr ⟨r, hr, hlook⟩), ?_⟩
      simp only [hkeep, truthy]
      rw [if_pos hs]
  have hperm : mid.Perm tgt :=
    (List.perm_ext_iff_of_nodup hmidnd (List.nodup_dedup _)).mpr hmem
  calc (sortStr mid).length = mid.length := (sortStr_perm mid).length_eq
    _ = tgt.length := hperm.length_eq

/-! ## Claim theorems: Filter Index Builder -/

/-- C6: a column is offered as a dropdown filter iff it is a column of the
dataset (a key of its first row), is none of the excluded coordinate/name
fields, and its number of distinct non-empty values lies strictly between
0 and 50 — a column with 0 or with 50 or more distinct values is silently
omitted — and every offered option list is sorted lexicographically
ascending. -/
theorem c6_dropdown_eligibility (data : List Row) (c : String) :
    (c ∈ (offeredDropdowns data).map Prod.fst
        ↔ c ∈ headerColumns data ∧ c ∉ excludedColumns
            ∧ 0 < distinctCount data c ∧ distinctCount data c < 50)
    ∧ ∀ opts, (c, opts) ∈ offeredDropdowns data → opts.Pairwise strLe := by
  have hfc : c ∈ filterableColumns data
      ↔ c ∈ headerColumns data ∧ c ∉ excludedColumns := by
    rw [filterableColumns, List.mem_filter]
    simp [excludedColumns, and_assoc]
  have hoff : c ∈ (offeredDropdowns data).map Prod.fst
      ↔ c ∈ filterableColumns data
          ∧ 0 < distinctCount data c ∧ distinctCount data c < 50 := by
    constructor
    · intro h
      simp only [offeredDropdowns, List.mem_map, List.mem_filterMap] at h
      obtain ⟨p, ⟨col, hcol, hg⟩, hpc⟩ := h
      by_cases hcond : 0 < (uniqueValues data col).length ∧ (uniqueValues data col).length < 50
      · rw [if_pos hcond] at hg
        obtain rfl : (col, uniqueValues data col) = p := Option.some_inj.mp hg
        obtain rfl : col = c := hpc
        rw [uniqueValues_length] at hcond
        exact ⟨hcol, hcond⟩
      · rw [if_neg hcond] at hg
        cases hg
    · rintro ⟨hcol, hcount⟩
      simp only [offeredDropdowns, List.mem_map, List.mem_filterMap]
      refine ⟨(c, uniqueValues data c), ⟨c, hcol, ?_⟩, rfl⟩
      rw [if_pos (by rw [uniqueValues_length]; exact hcount)]
  constructor
  · rw [hoff, hfc]
    tauto
  · intro opts hmem
    simp only [offeredDropdowns, List.mem_filterMap] at hmem
    obtain ⟨col, -, hg⟩ := hmem
    by_cases hcond : 0 < (uniqueValues data col).length ∧ (uniqueValues data col).length < 50
    · rw [if_pos hcond] at hg
      obtain ⟨rfl, rfl⟩ : col = c ∧ uniqueValues data col = opts := by
        have := Option.some_inj.mp hg
        exact ⟨congrArg Prod.fst this, congrArg Prod.snd this⟩
      exact sortStr_sorted _
    · rw [if_neg hcond] at hg
      cases hg

/-- Witness for `c6_dropdown_eligibility`: on the three-row Bar dataset the
"category" column is offered, with its two options sorted ascending. -/
theorem c6_dropdown_eligibility_witness :
    ("category" ∈ headerColumns barRows ∧ "category" ∉ excludedColumns
        ∧ 0 < distinctCount barRows "category" ∧ distinctCount barRows "category" < 50)
    ∧ List.Pairwise strLe ["Bar", "Food"] :=
  ⟨(c6_dropdown_eligibility barRows "category").1.mp (by decide),
   (c6_dropdown_eligibility barRows "category").2 ["Bar", "Food"] (by decide)⟩

/-! ## Claim theorems: loadCSV and startup -/

/-- C1 fails on the code (the caller plainly expects the rows): on a
successful load the chain parses the CSV and renders the valid rows from
inside `loadCSV` itself, but the value `loadCSV` delivers to its caller is
`undefined`, so `createFilterControls` receives `undefined` — not the row
sequence — and throws before building any control. -/
theorem c1_loader_return_bug :
    (startup (.response 200 demoCSV)).loader.renderedRows = some [cafeRow]
    ∧ (startup (.response 200 demoCSV)).loader.callerValue = none
    ∧ (startup (.response 200 demoCSV)).controls.isOk = false := by
  refine ⟨by decide, by decide, by decide⟩

/-- C7 is false as stated: on an HTTP 404 no error reaches the caller —
the promise the caller awaits resolves normally — because the chain's own
`.catch` consumes the error and only logs it. -/
theorem c7_counterexample :
    (loadCSV (.response 404 "")).callerError = none
    ∧ (loadCSV (.response 404 "")).loggedError
        = some "Error loading CSV: Error: HTTP error! status: 404" := by
  refine ⟨by decide, by decide⟩

/-- C7 amended: when retrieval does not succeed (non-success status or
transport failure) the error is caught and logged inside `loadCSV` — not
rethrown to the caller, not retried — the failed load parses and renders
no rows, and startup shows no dropdown filter controls. -/
theorem c7_fetch_failure (o : FetchOutcome) (h : fetchSucceeds o = false) :
    (loadCSV o).loggedError.isSome = true
    ∧ (loadCSV o).callerError = none
    ∧ (loadCSV o).renderedRows = none
    ∧ (startup o).controls.isOk = false := by
  cases o with
  | transportFail => exact ⟨rfl, rfl, rfl, rfl⟩
  | response status body =>
    have hf : fetchOk status = false := h
    refine ⟨?_, ?_, ?_, ?_⟩ <;>
      simp [loadCSV, startup, createFilterControls, hf, Except.isOk, Except.toBool]

/-- Witness for `c7_fetch_failure` at the concrete 404 response. -/
theorem c7_fetch_failure_witness :
    fetchSucceeds (.response 404 "") = false
    ∧ ((loadCSV (.response 404 "")).loggedError.isSome = true
        ∧ (loadCSV (.response 404 "")).callerError = none
        ∧ (loadCSV (.response 404 "")).renderedRows = none
        ∧ (startup (.response 404 "")).controls.isOk = false) :=
  ⟨by decide, c7_fetch_failure _ (by decide)⟩

end SignMap
